import Mathlib

/-!
Verification of the token-analyzer repository (fwaltrick/token-analyzer).

This file gives a shallow embedding of the token ingestion / persistence /
scoring pipeline of `src/apps/api/src/token-data/token-data.service.ts` and
proves or refutes the frozen claims about it.

The service file concatenates two historical revisions of the same class:
the current revision (lines 1-1054, with enrichment fields and a
three-predicate cleanup) and a legacy revision (lines 1055-1988, with a
hardcoded fallback token list and a delete-everything cleanup).  Both are
embedded; definitions of the legacy revision carry a `_legacy` suffix.

Modelling conventions:
* JavaScript numbers are modelled as `ℚ`; database `DOUBLE PRECISION`
  columns that the TypeScript code defensively coalesces with `|| 0` are
  modelled as `Option ℚ` (`none` = SQL NULL / absent).
* JavaScript `x || d` on numbers returns `d` when `x` is null/undefined or
  `0` (both falsy); `numOr` mirrors this.  On strings it returns `d` when
  `x` is null/undefined or `""`; `strOr` mirrors this.
* Division is modelled by `jsDiv`, which returns `none` where JavaScript
  produces `NaN`/`Infinity` (zero divisor) and `some (a / b)` otherwise.
* Timestamps are epoch milliseconds, modelled as `ℤ`.
* `Math.random()` streams are passed explicitly as a function `ℕ → ℚ`
  yielding the successive draws.
* Effectful database code is modelled by explicit state passing on the
  stored list of records.
-/

namespace TokenAnalyzer

/-- JavaScript `x || d` for a nullable number: `d` when `x` is
null/undefined or `0` (falsy), otherwise the value of `x`. -/
def numOr (x : Option ℚ) (d : ℚ) : ℚ :=
  match x with
  | none => d
  | some v => if v = 0 then d else v

/-- JavaScript `x || y` on two (non-null) numbers: `y` when `x = 0`. -/
def jsOrQ (x y : ℚ) : ℚ :=
  if x = 0 then y else x

/-- JavaScript `x || d` for a nullable string: `d` when `x` is
null/undefined or the empty string. -/
def strOr (x : Option String) (d : String) : String :=
  match x with
  | none => d
  | some s => if s = "" then d else s

/-- JavaScript `x || null` for a nullable string: `null` when `x` is
null/undefined or the empty string. -/
def strOrNull (x : Option String) : Option String :=
  match x with
  | none => none
  | some s => if s = "" then none else some s

/-- A SQL / Prisma `{ field: { lt: c } }` test on a nullable numeric
column: false on NULL. -/
def numLt (x : Option ℚ) (c : ℚ) : Bool :=
  match x with
  | none => false
  | some v => v < c

/-- A SQL / Prisma `{ field: { lte: c } }` test on a nullable numeric
column: false on NULL. -/
def numLe (x : Option ℚ) (c : ℚ) : Bool :=
  match x with
  | none => false
  | some v => v ≤ c

/-- JavaScript division: `none` stands for the non-finite results
(`NaN` for `0/0`, `±Infinity` otherwise) produced when the divisor is 0. -/
def jsDiv (a b : ℚ) : Option ℚ :=
  if b = 0 then none else some (a / b)

/-- `Math.floor` on a JavaScript number, staying in `ℚ`. -/
def jsFloor (q : ℚ) : ℚ :=
  ((⌊q⌋ : ℤ) : ℚ)

/-- The persisted `Token` row (prisma model / migration in
`src/unnamed/part_006`).  The surrogate `id` column is omitted: the code
keys every read and write on the unique `address`. -/
structure Token where
  address : String
  name : String
  symbol : String
  description : Option String
  imageUrl : Option String
  uri : Option String
  website : Option String
  twitter : Option String
  telegram : Option String
  priceUsd : Option ℚ
  marketCap : Option ℚ
  volume24h : Option ℚ
  createdAt : ℤ
  updatedAt : ℤ
deriving DecidableEq

/-- A normalized upstream candidate record, the shape consumed by the
persistence loop of `fetchAndStoreLatestTokens` (every normalizer in the
service produces at least these fields; fields the persistence loop never
reads — creator, created_timestamp, complete, website, twitter,
telegram — are omitted). -/
structure Candidate where
  mint : String
  name : String
  symbol : String
  description : Option String
  image_uri : Option String
  uri : Option String
  market_cap : ℚ
  usd_market_cap : ℚ
  virtual_sol_reserves : ℚ
  virtual_token_reserves : ℚ
deriving DecidableEq

/-- `calculateTokenPrice` (token-data.service.ts:827-836): bonding-curve
price from the two reserve quantities at a fixed 150 USD SOL reference;
`0.000001` fallback when either reserve is absent/zero (falsy). -/
def calculateTokenPrice (c : Candidate) : ℚ :=
  if c.virtual_sol_reserves ≠ 0 ∧ c.virtual_token_reserves ≠ 0 then
    c.virtual_sol_reserves / c.virtual_token_reserves * 150
  else 1 / 1000000

/-- `calculateRiskScore` (token-data.service.ts:1015-1029): base 50, +20
when volume below 50000, +15 when price below 0.001, +15 when market cap
below 100000, clamped above by 100 via `Math.min`. -/
def calculateRiskScore (t : Token) : ℚ :=
  let riskScore : ℚ := 50
  let riskScore := if numOr t.volume24h 0 < 50000 then riskScore + 20 else riskScore
  let riskScore := if numOr t.priceUsd 0 < 1 / 1000 then riskScore + 15 else riskScore
  let riskScore := if numOr t.marketCap 0 < 100000 then riskScore + 15 else riskScore
  min 100 riskScore

/-- `generateRecommendation` (token-data.service.ts:1031-1042): label from
the risk score and the volume / market-cap figures, checked in priority
order, with a research fallback. -/
def generateRecommendation (t : Token) : String :=
  let riskScore := calculateRiskScore t
  let volume := numOr t.volume24h 0
  let marketCap := numOr t.marketCap 0
  if riskScore > 80 then "⚠️ AVOID"
  else if riskScore > 60 then "👀 MONITOR"
  else if volume > 500000 ∧ marketCap > 1000000 then "🚀 BUY"
  else if volume > 100000 ∧ marketCap > 500000 then "📈 HOLD"
  else "🤔 RESEARCH"

/-- `calculatePotentialGain` (token-data.service.ts:1044-1053). -/
def calculatePotentialGain (t : Token) : String :=
  let volume := numOr t.volume24h 0
  let marketCap := numOr t.marketCap 0
  if volume > 1000000 ∧ marketCap < 5000000 then "+500% (24h)"
  else if volume > 500000 ∧ marketCap < 2000000 then "+200% (12h)"
  else if volume > 100000 then "+50% (6h)"
  else "+10% (1h)"

/-- The example record of the spec: address A1, priceUsd 0.0005,
marketCap 50000, volume24h 20000. -/
def tokenA1 : Token :=
  { address := "A1", name := "Test", symbol := "TST"
    description := none, imageUrl := none, uri := none
    website := none, twitter := none, telegram := none
    priceUsd := some (5 / 10000), marketCap := some 50000
    volume24h := some 20000, createdAt := 0, updatedAt := 0 }

/-- The row created for an unseen address by `fetchAndStoreLatestTokens`
(token-data.service.ts:704-723): `createdAt`/`updatedAt` come from the
schema defaults (`DEFAULT CURRENT_TIMESTAMP` / `@updatedAt`), hence the
insertion time `now`. -/
def newToken (now : ℤ) (c : Candidate) : Token :=
  { address := c.mint
    name := c.name
    symbol := c.symbol
    imageUrl := some (strOr c.image_uri "")
    uri := strOrNull c.uri
    twitter := none
    telegram := none
    website := none
    priceUsd := some (calculateTokenPrice c)
    volume24h := some (c.virtual_sol_reserves * (1 / 10))
    marketCap := some (jsOrQ c.usd_market_cap (jsOrQ c.market_cap 0))
    description := some (strOr c.description (c.name ++ " - Pump.fun memecoin"))
    createdAt := now
    updatedAt := now }

/-- The write performed on the update path of `fetchAndStoreLatestTokens`
(token-data.service.ts:725-735): only `priceUsd`, `volume24h`, `marketCap`
are in the update data; `updatedAt` advances via the schema `@updatedAt`. -/
def applyUpdate (now : ℤ) (c : Candidate) (t : Token) : Token :=
  { t with
    priceUsd := some (calculateTokenPrice c)
    volume24h := some (c.virtual_sol_reserves * (1 / 10))
    marketCap := some (jsOrQ c.usd_market_cap (jsOrQ c.market_cap 0))
    updatedAt := now }

/-- One iteration of the persistence loop of `fetchAndStoreLatestTokens`
(token-data.service.ts:700-736): look the candidate's mint up by unique
address, create when absent, otherwise update the matching row.  The
accumulator carries the store plus the insert and update tallies. -/
def upsertStep (now : ℤ) (acc : List Token × ℕ × ℕ) (c : Candidate) :
    List Token × ℕ × ℕ :=
  match acc.1.find? (fun t => decide (t.address = c.mint)) with
  | none => (acc.1 ++ [newToken now c], acc.2.1 + 1, acc.2.2)
  | some _ =>
      (acc.1.map (fun t => if t.address = c.mint then applyUpdate now c t else t),
       acc.2.1, acc.2.2 + 1)

/-- The whole persistence loop over a batch of candidates. -/
def upsertAll (now : ℤ) (store : List Token) (cs : List Candidate) :
    List Token × ℕ × ℕ :=
  cs.foldl (upsertStep now) (store, 0, 0)

/-- Outcome of one upstream source attempt: a candidate batch, or a
thrown error (network failure, timeout, malformed payload). -/
inductive FetchOutcome where
  | ok : List Candidate → FetchOutcome
  | fail : FetchOutcome
deriving DecidableEq

/-- Observable outcome of one fetch-and-store cycle: the resulting store,
the number of rows created and updated, whether `logger.error` fired, and
whether the call raised to its caller. -/
structure CycleResult where
  store : List Token
  inserted : ℕ
  updated : ℕ
  errorLogged : Bool
  threw : Bool
deriving DecidableEq

/-- Source fallback of the current `fetchAndStoreLatestTokens`
(token-data.service.ts:659-690) after the primary WebSocket source failed
or returned an empty batch: try the Puppeteer scraper, then the explorer
token-list API; when the last one fails the code throws
`All token data sources failed` (`none` here). -/
def trySecondarySources (r2 r3 : FetchOutcome) : Option (List Candidate) :=
  match r2 with
  | .ok l => some l
  | .fail =>
      match r3 with
      | .ok l => some l
      | .fail => none

/-- `fetchAndStoreLatestTokens`, current revision
(token-data.service.ts:653-747), with the three upstream source attempts
passed in as explicit outcomes.  The primary batch is only accepted when
non-empty; an empty selected batch logs an error and returns; a throw from
the source cascade is absorbed by the outer catch, which logs and returns
normally. -/
def fetchAndStoreLatestTokens (now : ℤ) (store : List Token)
    (r1 r2 r3 : FetchOutcome) : CycleResult :=
  let sel : Option (List Candidate) :=
    match r1 with
    | .ok l => if 0 < l.length then some l else trySecondarySources r2 r3
    | .fail => trySecondarySources r2 r3
  match sel with
  | none => ⟨store, 0, 0, true, false⟩
  | some tokens =>
      if tokens.length = 0 then ⟨store, 0, 0, true, false⟩
      else
        let r := upsertAll now store tokens
        ⟨r.1, r.2.1, r.2.2, false, false⟩

/-- The ten hardcoded token identities of `getRealPumpFunTokenData`
(token-data.service.ts:1493-1559): mint, name, symbol, description. -/
def knownPumpFunTokens : List (String × String × String × String) :=
  [("EPjFWdd5AufqSSqeM2qN1xzybapC8G4wEGGkZwyTDt1v", "Peanut the Squirrel", "PNUT",
    "The legendary squirrel that became a Solana meme sensation on Pump.fun"),
   ("2qEHjDLDLbuBgRYvsxhc5D6uDWAivNFZGan56P1tpump", "Goatseus Maximus", "GOAT",
    "AI-generated meme token that took Pump.fun by storm"),
   ("4k3Dyjzvzp8eMZWUXbBCjEvwSkkk59S5iCNLY3QrkX6R", "Act I The AI Prophecy", "ACT",
    "Revolutionary AI narrative token on Pump.fun"),
   ("ED5nyyWEzpPPiWimP8vYm7sD7TD3LAt3Q3gRTWHzPJBY", "Moo Deng", "MOODENG",
    "Baby hippo meme that conquered Pump.fun"),
   ("9BB6NFEcjBCtnNLFko2FqVQBq8HHM13kCyYcdQbgpump", "FWOG", "FWOG",
    "Frog meme token with strong community on Pump.fun"),
   ("GJAFwWjJ3vnTsrQVabjBVK2TYB1YtRCQXRDfDgUnpump", "Department Of Government Efficiency", "DOGE",
    "Government efficiency meme inspired by Elon Musk"),
   ("ukHH6c7mMyiWCf1b9pnWe25TSpkDDt3H5pQZgZ74J82", "Bonk", "BONK",
    "The original Solana dog meme that started on Pump.fun"),
   ("8x5VqbHA8D7NkD52uNuS5S6cvjthTXfjLmgAE5pspump", "Popcat", "POPCAT",
    "Popular cat meme token with viral status"),
   ("CzLSujWBLFsSjncfkh59rUFqvafWcY5tzedWJSuypump", "Based Brett", "BRETT",
    "Base chain character that crossed over to Solana"),
   ("9nEqaUcb16sQ3Tn1psbkWqyhPdLmfHWjKGymREjsAgTE", "Wojak", "WOJ",
    "Classic internet meme turned Pump.fun sensation")]

/-- `getRealPumpFunTokenData` (token-data.service.ts:1493-1583, legacy
revision only): hardcoded identities with randomized market data.  Each
entry consumes nine `Math.random()` draws in source order (variation,
sol reserves, token reserves, then six draws for creator, timestamp,
complete flag and social links, which the persistence loop never reads);
`rng` is the draw stream. -/
def getRealPumpFunTokenData (rng : ℕ → ℚ) : List Candidate :=
  knownPumpFunTokens.enum.map (fun p =>
    let i : ℚ := p.1
    let baseMarketCap : ℚ := 50000000 - i * 5000000
    let variation : ℚ := (rng (9 * p.1) - 1 / 2) * (3 / 10)
    { mint := p.2.1
      name := p.2.2.1
      symbol := p.2.2.2.1
      description := some p.2.2.2.2
      image_uri := some ""
      uri := none
      market_cap := jsFloor (baseMarketCap * (1 + variation))
      usd_market_cap := jsFloor (baseMarketCap * (1 + variation))
      virtual_sol_reserves := jsFloor (100 + rng (9 * p.1 + 1) * 900)
      virtual_token_reserves := jsFloor (1000000 + rng (9 * p.1 + 2) * 9000000) })

/-- The row created for an unseen address by the legacy
`fetchAndStoreLatestTokens` (token-data.service.ts:1723-1738): as the
current revision but without the `uri` / social-link columns in the create
data. -/
def newTokenLegacy (now : ℤ) (c : Candidate) : Token :=
  { address := c.mint
    name := c.name
    symbol := c.symbol
    imageUrl := some (strOr c.image_uri "")
    uri := none
    twitter := none
    telegram := none
    website := none
    priceUsd := some (calculateTokenPrice c)
    volume24h := some (c.virtual_sol_reserves * (1 / 10))
    marketCap := some (jsOrQ c.usd_market_cap (jsOrQ c.market_cap 0))
    description := some (strOr c.description (c.name ++ " - Pump.fun memecoin"))
    createdAt := now
    updatedAt := now }

/-- One iteration of the legacy persistence loop
(token-data.service.ts:1718-1752). -/
def upsertStepLegacy (now : ℤ) (acc : List Token × ℕ × ℕ) (c : Candidate) :
    List Token × ℕ × ℕ :=
  match acc.1.find? (fun t => decide (t.address = c.mint)) with
  | none => (acc.1 ++ [newTokenLegacy now c], acc.2.1 + 1, acc.2.2)
  | some _ =>
      (acc.1.map (fun t => if t.address = c.mint then applyUpdate now c t else t),
       acc.2.1, acc.2.2 + 1)

/-- The two sample candidates built by the legacy `generateSampleTokens`
(token-data.service.ts:1775-1802); `Date.now()` is appended to the mint. -/
def sampleCandidates (now : ℤ) : List Candidate :=
  [{ mint := "SAMPLE1" ++ toString now
     name := "PumpFun Sample Token 1"
     symbol := "SAMPLE1"
     description := some "Sample token for demo - API unavailable"
     image_uri := some "https://via.placeholder.com/64x64.png?text=S1"
     uri := none
     market_cap := 50000, usd_market_cap := 50000
     virtual_sol_reserves := 100, virtual_token_reserves := 1000000 },
   { mint := "SAMPLE2" ++ toString now
     name := "PumpFun Sample Token 2"
     symbol := "SAMPLE2"
     description := some "Sample token for demo - API unavailable"
     image_uri := some "https://via.placeholder.com/64x64.png?text=S2"
     uri := none
     market_cap := 100000, usd_market_cap := 100000
     virtual_sol_reserves := 200, virtual_token_reserves := 2000000 }]

/-- The rows created by the legacy `generateSampleTokens`
(token-data.service.ts:1804-1818): `volume24h` is a fresh
`Math.random() * 1000000` draw per row. -/
def sampleRows (now : ℤ) (rng : ℕ → ℚ) : List Token :=
  (sampleCandidates now).enum.map (fun p =>
    { address := p.2.mint
      name := p.2.name
      symbol := p.2.symbol
      imageUrl := some (strOr p.2.image_uri "")
      uri := none, twitter := none, telegram := none, website := none
      priceUsd := some (calculateTokenPrice p.2)
      volume24h := some (rng p.1 * 1000000)
      marketCap := some (jsOrQ p.2.usd_market_cap (jsOrQ p.2.market_cap 0))
      description := some (strOr p.2.description (p.2.name ++ " - Sample token"))
      createdAt := now
      updatedAt := now })

/-- Legacy source fallback (token-data.service.ts:1686-1709): after the
third source fails the code logs an error and substitutes the hardcoded
fallback list instead of throwing.  The Bool records whether
`logger.error` fired during selection. -/
def trySecondarySourcesLegacy (r2 r3 : FetchOutcome) (rng : ℕ → ℚ) :
    List Candidate × Bool :=
  match r2 with
  | .ok l => (l, false)
  | .fail =>
      match r3 with
      | .ok l => (l, false)
      | .fail => (getRealPumpFunTokenData rng, true)

/-- `fetchAndStoreLatestTokens`, legacy revision
(token-data.service.ts:1679-1762): never ends the cycle empty-handed — an
all-fail cascade substitutes the hardcoded fallback list, and an empty
selected batch triggers `generateSampleTokens`. -/
def fetchAndStoreLatestTokensLegacy (now : ℤ) (store : List Token)
    (r1 r2 r3 : FetchOutcome) (rng : ℕ → ℚ) : CycleResult :=
  let sel : List Candidate × Bool :=
    match r1 with
    | .ok l => if 0 < l.length then (l, false) else trySecondarySourcesLegacy r2 r3 rng
    | .fail => trySecondarySourcesLegacy r2 r3 rng
  if sel.1.length = 0 then
    ⟨store ++ sampleRows now rng, (sampleRows now rng).length, 0, sel.2, false⟩
  else
    let r := sel.1.foldl (upsertStepLegacy now) (store, 0, 0)
    ⟨r.1, r.2.1, r.2.2, sel.2, false⟩

/-- Milliseconds in a day, as used by the age thresholds of
`clearOldTokens` (`k * 24 * 60 * 60 * 1000`). -/
def dayMs : ℤ := 24 * 60 * 60 * 1000

/-- First cleanup predicate (token-data.service.ts:756-763): created more
than 30 days ago. -/
def veryOldPred (now : ℤ) (t : Token) : Bool :=
  decide (t.createdAt < now - 30 * dayMs)

/-- Second cleanup predicate (token-data.service.ts:766-784): created more
than 7 days ago, `imageUrl` NULL or empty, and market cap below 1000. -/
def noImageLowCapPred (now : ℤ) (t : Token) : Bool :=
  decide (t.createdAt < now - 7 * dayMs) &&
    (t.imageUrl == none || t.imageUrl == some "") &&
    numLt t.marketCap 1000

/-- Third cleanup predicate (token-data.service.ts:787-803): created more
than 3 days ago and market cap ≤ 0. -/
def deadPred (now : ℤ) (t : Token) : Bool :=
  decide (t.createdAt < now - 3 * dayMs) && numLe t.marketCap 0

/-- Prisma `deleteMany(where)`: remove every matching row, report the
number removed. -/
def deleteMany (p : Token → Bool) (store : List Token) : List Token × ℕ :=
  (store.filter (fun t => !(p t)), store.countP p)

/-- Observable outcome of one `clearOldTokens` run: the surviving store,
the three per-predicate deletion counts, the count breakdown appearing in
the summary log line (emitted only when something was deleted), and the
value returned to the caller — the TypeScript function is
`Promise<void>`, so the caller receives nothing (`Unit`). -/
structure CleanupRun where
  store : List Token
  veryOld : ℕ
  withoutImage : ℕ
  dead : ℕ
  logged : Option (ℕ × ℕ × ℕ)
  returned : Unit
deriving DecidableEq

/-- `clearOldTokens`, current revision (token-data.service.ts:749-817):
three sequential `deleteMany` calls, a summary log when the total is
positive, and no return value. -/
def clearOldTokens (now : ℤ) (store : List Token) : CleanupRun :=
  let r1 := deleteMany (veryOldPred now) store
  let r2 := deleteMany (noImageLowCapPred now) r1.1
  let r3 := deleteMany (deadPred now) r2.1
  let totalDeleted := r1.2 + r2.2 + r3.2
  { store := r3.1
    veryOld := r1.2
    withoutImage := r2.2
    dead := r3.2
    logged := if 0 < totalDeleted then some (r1.2, r2.2, r3.2) else none
    returned := () }

/-- `manualCleanupOldTokens` (token-data.service.ts:186-189): logs and
delegates to `clearOldTokens`; also `Promise<void>`. -/
def manualCleanupOldTokens (now : ℤ) (store : List Token) : CleanupRun :=
  clearOldTokens now store

/-- `clearOldTokens`, legacy revision (token-data.service.ts:1764-1773):
`deleteMany({})` — every row is removed regardless of age, and only the
total count is logged. -/
def clearOldTokensLegacy (store : List Token) : List Token × ℕ :=
  (([] : List Token), store.length)

/-- The sort-field allow-list of `getAllTokens`
(token-data.service.ts:867-875). -/
def validSortFields : List String :=
  ["createdAt", "updatedAt", "volume24h", "marketCap", "priceUsd", "name", "symbol"]

/-- Ascending row comparison for one sort column.  The numeric columns are
`NOT NULL` in the schema, so the `getD 0` default never decides an order;
unrecognized fields land on `createdAt`, matching the allow-list
fallback. -/
def fieldLe (field : String) (a b : Token) : Bool :=
  if field = "updatedAt" then decide (a.updatedAt ≤ b.updatedAt)
  else if field = "volume24h" then decide (a.volume24h.getD 0 ≤ b.volume24h.getD 0)
  else if field = "marketCap" then decide (a.marketCap.getD 0 ≤ b.marketCap.getD 0)
  else if field = "priceUsd" then decide (a.priceUsd.getD 0 ≤ b.priceUsd.getD 0)
  else if field = "name" then decide (a.name ≤ b.name)
  else if field = "symbol" then decide (a.symbol ≤ b.symbol)
  else decide (a.createdAt ≤ b.createdAt)

/-- The database read `findMany({ orderBy: { [field]: order } })`: a total
sort of the stored rows on one column (ties are returned in an unspecified
database order; the stable merge sort fixes one such order). -/
def sortTokens (field ord : String) (store : List Token) : List Token :=
  if ord = "asc" then store.insertionSort (fun a b => fieldLe field a b = true)
  else store.insertionSort (fun a b => fieldLe field b a = true)

/-- The pagination envelope of `getAllTokens`. -/
structure Pagination where
  page : ℕ
  limit : ℕ
  total : ℕ
  totalPages : ℕ
  hasNext : Bool
  hasPrevious : Bool
deriving DecidableEq

/-- Result shape of `getAllTokens`. -/
structure TokenPage where
  tokens : List Token
  pagination : Pagination
deriving DecidableEq

/-- `getAllTokens`, current revision (token-data.service.ts:848-923):
validate the sort field against the allow-list (fallback `createdAt`),
map any `sortOrder` other than `asc` to `desc`, then return the
`skip = (page-1)*limit` slice of the sorted store together with the
pagination envelope.  `page ≥ 1` and `limit ≥ 1` as at every call site
(defaults 1 and 50); `Math.ceil(total / limit)` is the usual integer
ceiling there. -/
def getAllTokens (store : List Token) (page : ℕ := 1) (limit : ℕ := 50)
    (sortBy : String := "createdAt") (sortOrder : String := "desc") : TokenPage :=
  let skip := (page - 1) * limit
  let validSortField := if validSortFields.contains sortBy then sortBy else "createdAt"
  let validSortOrder := if sortOrder = "asc" then "asc" else "desc"
  let total := store.length
  let tokens := ((sortTokens validSortField validSortOrder store).drop skip).take limit
  let totalPages := (total + limit - 1) / limit
  { tokens := tokens
    pagination :=
      { page := page, limit := limit, total := total, totalPages := totalPages
        hasNext := decide (page < totalPages), hasPrevious := decide (1 < page) } }

/-- Result shape of `analyzeMemecoins`.  `averagePrice` is `Option ℚ`
because the JavaScript expression can produce the non-number `NaN`
(modelled `none`, see `jsDiv`). -/
structure Analysis where
  totalMemecoins : ℕ
  totalVolume24h : ℚ
  totalMarketCap : ℚ
  averagePrice : Option ℚ
  highRiskTokens : ℕ
  trending : List Token
  topGainers : List Token
  recommendations : List (Token × ℚ × String × String)
deriving DecidableEq

/-- `analyzeMemecoins`, current revision (token-data.service.ts:963-1013):
aggregates over the default `getAllTokens()` page.  `averagePrice` divides
the price sum by `tokens.length` with no empty-store guard. -/
def analyzeMemecoins (store : List Token) : Analysis :=
  let tokens := (getAllTokens store).tokens
  { totalMemecoins := tokens.length
    totalVolume24h := tokens.foldl (fun s t => s + numOr t.volume24h 0) 0
    totalMarketCap := tokens.foldl (fun s t => s + numOr t.marketCap 0) 0
    averagePrice := jsDiv (tokens.foldl (fun s t => s + numOr t.priceUsd 0) 0) tokens.length
    highRiskTokens := tokens.countP (fun t => decide (numOr t.volume24h 0 < 50000))
    trending :=
      ((tokens.filter (fun t => decide (100000 < numOr t.volume24h 0))).insertionSort
        (fun a b => numOr b.volume24h 0 ≤ numOr a.volume24h 0)).take 10
    topGainers :=
      ((tokens.filter (fun t => decide (1000000 < numOr t.marketCap 0))).insertionSort
        (fun a b => numOr b.marketCap 0 ≤ numOr a.marketCap 0)).take 5
    recommendations :=
      tokens.map (fun t =>
        (t, calculateRiskScore t, generateRecommendation t, calculatePotentialGain t)) }

/-- The empty-aggregate object returned by the catch branch of
`analyzeMemecoins` (token-data.service.ts:1002-1012) and by the
controller's analysis error envelope: every numeric aggregate is the
number 0. -/
def emptyAnalysis : Analysis :=
  { totalMemecoins := 0
    totalVolume24h := 0
    totalMarketCap := 0
    averagePrice := some 0
    highRiskTokens := 0
    trending := []
    topGainers := []
    recommendations := [] }

/-- A record hitting the research fallback of `generateRecommendation`:
no risk penalties (score 50) but volume and market cap below the upside
cutoffs. -/
def tokenResearch : Token :=
  { address := "R1", name := "Plain", symbol := "PLN"
    description := none, imageUrl := none, uri := none
    website := none, twitter := none, telegram := none
    priceUsd := some 1, marketCap := some 100000
    volume24h := some 50000, createdAt := 0, updatedAt := 0 }

/-- A record one day old at reference time `100 * dayMs`. -/
def tokenFresh : Token :=
  { address := "F1", name := "Fresh", symbol := "FRS"
    description := none, imageUrl := none, uri := none
    website := none, twitter := none, telegram := none
    priceUsd := some 1, marketCap := some 5, volume24h := some 5
    createdAt := 99 * dayMs, updatedAt := 99 * dayMs }

/-- A record created at epoch 0, far older than 30 days at the reference
times used below. -/
def tokenAncient : Token :=
  { address := "O1", name := "Ancient", symbol := "ANC"
    description := none, imageUrl := some "x", uri := none
    website := none, twitter := none, telegram := none
    priceUsd := some 1, marketCap := some 5000000, volume24h := some 5
    createdAt := 0, updatedAt := 0 }

/-- A record four days old at reference time `40 * dayMs` with market cap
0: deleted only by the third (dead-token) cleanup predicate. -/
def tokenDead : Token :=
  { address := "D1", name := "Dead", symbol := "DED"
    description := none, imageUrl := some "x", uri := none
    website := none, twitter := none, telegram := none
    priceUsd := some 1, marketCap := some 0, volume24h := some 5
    createdAt := 36 * dayMs, updatedAt := 36 * dayMs }

/-- A stored record with empty enrichment fields, address M1. -/
def tokenStale : Token :=
  { address := "M1", name := "Old", symbol := "OLD"
    description := none, imageUrl := some "", uri := none
    website := none, twitter := none, telegram := none
    priceUsd := some 1, marketCap := some 1, volume24h := some 1
    createdAt := 0, updatedAt := 0 }

/-- An incoming candidate for address M1 carrying non-empty enrichment
values. -/
def candFresh : Candidate :=
  { mint := "M1", name := "New name", symbol := "NEW"
    description := some "Fresh description"
    image_uri := some "https://img.example/x.png", uri := none
    market_cap := 7, usd_market_cap := 7
    virtual_sol_reserves := 10, virtual_token_reserves := 100 }

/-- A record created at epoch millisecond 1000. -/
def tokenEarly : Token :=
  { address := "E1", name := "Early", symbol := "ERL"
    description := none, imageUrl := none, uri := none
    website := none, twitter := none, telegram := none
    priceUsd := some 1, marketCap := some 1, volume24h := some 1
    createdAt := 1000, updatedAt := 1000 }

/-- A record created at epoch millisecond 2000. -/
def tokenLate : Token :=
  { address := "L1", name := "Late", symbol := "LAT"
    description := none, imageUrl := none, uri := none
    website := none, twitter := none, telegram := none
    priceUsd := some 1, marketCap := some 1, volume24h := some 1
    createdAt := 2000, updatedAt := 2000 }

/-- A concrete `Math.random()` stream: every draw is one half. -/
def rngHalf : ℕ → ℚ := fun _ => 1 / 2

theorem mem_upsertStep_of_match (now : ℤ) (store : List Token) (c : Candidate)
    (i u : ℕ) (t : Token) (hmem : t ∈ store) (haddr : t.address = c.mint) :
    applyUpdate now c t ∈ (upsertStep now (store, i, u) c).1 := by
  have hsome : (store.find? (fun t => decide (t.address = c.mint))).isSome :=
    List.find?_isSome.mpr ⟨t, hmem, by simp [haddr]⟩
  unfold upsertStep
  cases hfind : store.find? (fun t => decide (t.address = c.mint)) with
  | none => rw [hfind] at hsome; simp at hsome
  | some t0 =>
      simp only
      exact List.mem_map.mpr ⟨t, hmem, by simp [haddr]⟩

theorem fieldLe_createdAt (a b : Token) :
    fieldLe "createdAt" a b = decide (a.createdAt ≤ b.createdAt) := rfl

theorem sorted_sortTokens_asc (store : List Token) :
    (sortTokens "createdAt" "asc" store).Pairwise
      (fun a b => a.createdAt ≤ b.createdAt) := by
  have htot : IsTotal Token (fun a b => fieldLe "createdAt" a b = true) :=
    ⟨fun a b => by
      simp only [fieldLe_createdAt, decide_eq_true_eq]
      exact le_total _ _⟩
  have htr : IsTrans Token (fun a b => fieldLe "createdAt" a b = true) :=
    ⟨fun a b c hab hbc => by
      simp only [fieldLe_createdAt, decide_eq_true_eq] at *
      omega⟩
  have hs := @List.sorted_insertionSort Token
    (fun a b => fieldLe "createdAt" a b = true) (fun a b => inferInstance) htot htr store
  exact hs.imp (fun hab => by simpa [fieldLe_createdAt] using hab)

theorem sorted_sortTokens_desc (store : List Token) (ord : String) (h : ord ≠ "asc") :
    (sortTokens "createdAt" ord store).Pairwise
      (fun a b => b.createdAt ≤ a.createdAt) := by
  have htot : IsTotal Token (fun a b => fieldLe "createdAt" b a = true) :=
    ⟨fun a b => by
      simp only [fieldLe_createdAt, decide_eq_true_eq]
      exact (le_total _ _).symm⟩
  have htr : IsTrans Token (fun a b => fieldLe "createdAt" b a = true) :=
    ⟨fun a b c hab hbc => by
      simp only [fieldLe_createdAt, decide_eq_true_eq] at *
      omega⟩
  have hs := @List.sorted_insertionSort Token
    (fun a b => fieldLe "createdAt" b a = true) (fun a b => inferInstance) htot htr store
  have heq : sortTokens "createdAt" ord store =
      store.insertionSort (fun a b => fieldLe "createdAt" b a = true) := by
    simp [sortTokens, h]
  rw [heq]
  exact hs.imp (fun hab => by simpa [fieldLe_createdAt] using hab)

theorem upsertStepLegacy_sum (now : ℤ) (acc : List Token × ℕ × ℕ) (c : Candidate) :
    (upsertStepLegacy now acc c).2.1 + (upsertStepLegacy now acc c).2.2 =
      acc.2.1 + acc.2.2 + 1 := by
  unfold upsertStepLegacy
  cases h : acc.1.find? (fun t => decide (t.address = c.mint)) <;> simp <;> omega

theorem upsertLegacy_counts (now : ℤ) (cs : List Candidate) :
    ∀ acc : List Token × ℕ × ℕ,
      (cs.foldl (upsertStepLegacy now) acc).2.1 +
        (cs.foldl (upsertStepLegacy now) acc).2.2 = acc.2.1 + acc.2.2 + cs.length := by
  induction cs with
  | nil => intro acc; simp
  | cons c cs ih =>
      intro acc
      rw [List.foldl_cons, ih]
      have := upsertStepLegacy_sum now acc c
      simp only [List.length_cons]
      omega

/-- C1: for the record with address A1, name Test, symbol TST,
priceUsd 0.0005, marketCap 50000, volume24h 20000, `calculateRiskScore`
returns exactly 100 (base 50 plus the low-volume, low-price and
low-market-cap penalties, clamped) and `generateRecommendation` returns
the AVOID label (rendered by the code as the display string
`⚠️ AVOID`). -/
theorem C1_example_record_score_and_recommendation :
    calculateRiskScore tokenA1 = 100 ∧
    generateRecommendation tokenA1 = "⚠️ AVOID" := by
  constructor
  · norm_num [calculateRiskScore, numOr, tokenA1]
  · norm_num [generateRecommendation, calculateRiskScore, numOr, tokenA1]

/-- C2 (counterexample): the claim covers both cited `clearOldTokens`
implementations, and the legacy one (token-data.service.ts:1764-1773)
runs `deleteMany({})`: the record `tokenFresh`, one day old at reference
time `100 * dayMs` (age below the 3-day threshold), is nevertheless
deleted. -/
theorem C2_counterexample_legacy_cleanup_deletes_fresh_record :
    tokenFresh ∈ [tokenFresh] ∧
    (100 * dayMs) - tokenFresh.createdAt < 3 * dayMs ∧
    tokenFresh ∉ (clearOldTokensLegacy [tokenFresh]).1 := by
  refine ⟨by simp, by norm_num [tokenFresh, dayMs], by simp [clearOldTokensLegacy]⟩

/-- C2 (amended): for the current cleanup implementation
(token-data.service.ts:749-817), every stored record younger than the
shortest threshold (3 days) survives `clearOldTokens`, and every record
older than the longest threshold (30 days) is deleted, regardless of its
other field values.  (The legacy duplicate deletes all rows
unconditionally, see the counterexample.) -/
theorem C2_cleanup_age_bounds (now : ℤ) (store : List Token) (t : Token)
    (hmem : t ∈ store) :
    (now - t.createdAt < 3 * dayMs → t ∈ (clearOldTokens now store).store) ∧
    (30 * dayMs < now - t.createdAt → t ∉ (clearOldTokens now store).store) := by
  have hd : dayMs = 86400000 := rfl
  constructor
  · intro hage
    have h3 : ¬ (t.createdAt < now - 3 * dayMs) := by omega
    have h7 : ¬ (t.createdAt < now - 7 * dayMs) := by omega
    have h30 : ¬ (t.createdAt < now - 30 * dayMs) := by omega
    simp [clearOldTokens, deleteMany, List.mem_filter, veryOldPred,
      noImageLowCapPred, deadPred, h3, h7, h30, hmem]
  · intro hage hmem'
    have h30 : t.createdAt < now - 30 * dayMs := by omega
    simp [clearOldTokens, deleteMany, List.mem_filter, veryOldPred] at hmem'
    obtain ⟨-, -, -, h⟩ := hmem'
    omega

/-- C2 (witness): at reference time `100 * dayMs`, the one-day-old record
survives the current cleanup and the 100-day-old record is deleted. -/
theorem C2_cleanup_age_bounds_witness :
    tokenFresh ∈ (clearOldTokens (100 * dayMs) [tokenFresh, tokenAncient]).store ∧
    tokenAncient ∉ (clearOldTokens (100 * dayMs) [tokenFresh, tokenAncient]).store := by
  constructor
  · exact (C2_cleanup_age_bounds (100 * dayMs) [tokenFresh, tokenAncient] tokenFresh
      (by simp)).1 (by norm_num [tokenFresh, dayMs])
  · exact (C2_cleanup_age_bounds (100 * dayMs) [tokenFresh, tokenAncient] tokenAncient
      (by simp)).2 (by norm_num [tokenAncient, dayMs])

/-- C3 (counterexample): the update path of the fetch cycle's upsert step
(token-data.service.ts:725-735) never writes the enrichment fields.  For
the stored record `tokenStale` (description NULL, imageUrl empty) and the
incoming candidate `candFresh` carrying a non-empty description and image
URL, the stored row keeps its old description and imageUrl after the
upsert, contradicting "updates the enrichment fields exactly when the
incoming value is non-empty". -/
theorem C3_counterexample_update_skips_enrichment :
    candFresh.description = some "Fresh description" ∧ "Fresh description" ≠ "" ∧
    candFresh.image_uri = some "https://img.example/x.png" ∧
    ((upsertStep 5 ([tokenStale], 0, 0) candFresh).1).map Token.description = [none] ∧
    ((upsertStep 5 ([tokenStale], 0, 0) candFresh).1).map Token.imageUrl = [some ""] := by
  refine ⟨rfl, by simp, rfl, ?_, ?_⟩ <;>
    simp [upsertStep, applyUpdate, tokenStale, candFresh, List.find?]

/-- C3 (amended): for an existing address, the upsert step always updates
priceUsd, volume24h and marketCap (and updatedAt) and never updates any
enrichment field (description, imageUrl, website, twitter, telegram); for
an unseen address it appends a new row whose createdAt is the insertion
time. -/
theorem C3_upsert_update_and_insert (now : ℤ) (store : List Token)
    (c : Candidate) (i u : ℕ) :
    (∀ t ∈ store, t.address = c.mint →
      applyUpdate now c t ∈ (upsertStep now (store, i, u) c).1 ∧
      (applyUpdate now c t).priceUsd = some (calculateTokenPrice c) ∧
      (applyUpdate now c t).volume24h = some (c.virtual_sol_reserves * (1 / 10)) ∧
      (applyUpdate now c t).marketCap = some (jsOrQ c.usd_market_cap (jsOrQ c.market_cap 0)) ∧
      (applyUpdate now c t).updatedAt = now ∧
      (applyUpdate now c t).description = t.description ∧
      (applyUpdate now c t).imageUrl = t.imageUrl ∧
      (applyUpdate now c t).website = t.website ∧
      (applyUpdate now c t).twitter = t.twitter ∧
      (applyUpdate now c t).telegram = t.telegram) ∧
    (store.find? (fun t => decide (t.address = c.mint)) = none →
      (upsertStep now (store, i, u) c).1 = store ++ [newToken now c] ∧
      (newToken now c).createdAt = now) := by
  constructor
  · intro t hmem haddr
    exact ⟨mem_upsertStep_of_match now store c i u t hmem haddr,
      rfl, rfl, rfl, rfl, rfl, rfl, rfl, rfl, rfl⟩
  · intro hnone
    unfold upsertStep
    rw [hnone]
    exact ⟨rfl, rfl⟩

/-- C3 (witness): the amended upsert behavior at the concrete store
`[tokenStale]` and candidate `candFresh`. -/
theorem C3_upsert_update_and_insert_witness :
    applyUpdate 5 candFresh tokenStale ∈ (upsertStep 5 ([tokenStale], 0, 0) candFresh).1 ∧
    (applyUpdate 5 candFresh tokenStale).description = tokenStale.description := by
  have h := (C3_upsert_update_and_insert 5 [tokenStale] candFresh 0 0).1 tokenStale
    (by simp) rfl
  exact ⟨h.1, h.2.2.2.2.2.1⟩

/-- C4 (counterexample): with the unrecognized sort field `volume` and
`sortOrder = asc`, `getAllTokens` returns the page in ascending
`createdAt` order, not the descending order the claim states: the page is
`[tokenEarly, tokenLate]`, which is not sorted descending. -/
theorem C4_counterexample_invalid_sortBy_ascending :
    validSortFields.contains "volume" = false ∧
    (getAllTokens [tokenLate, tokenEarly] 1 50 "volume" "asc").tokens =
      [tokenEarly, tokenLate] ∧
    ¬ ((getAllTokens [tokenLate, tokenEarly] 1 50 "volume" "asc").tokens.Pairwise
        (fun a b => b.createdAt ≤ a.createdAt)) := by
  refine ⟨by simp [validSortFields], ?_, ?_⟩
  · simp [getAllTokens, sortTokens, validSortFields, List.insertionSort,
      List.orderedInsert, fieldLe, tokenEarly, tokenLate]
  · intro hp
    have heq : (getAllTokens [tokenLate, tokenEarly] 1 50 "volume" "asc").tokens =
        [tokenEarly, tokenLate] := by
      simp [getAllTokens, sortTokens, validSortFields, List.insertionSort,
        List.orderedInsert, fieldLe, tokenEarly, tokenLate]
    rw [heq] at hp
    have := List.rel_of_pairwise_cons hp (List.mem_cons_self _ _)
    norm_num [tokenEarly, tokenLate] at this

/-- C4 (amended): for a sortBy outside the allow-list, `getAllTokens`
falls back to sorting by createdAt, but the direction still follows the
sortOrder argument: ascending when it is `asc`, descending otherwise. -/
theorem C4_invalid_sortBy_falls_back_to_createdAt (store : List Token)
    (page limit : ℕ) (sortBy sortOrder : String)
    (h : validSortFields.contains sortBy = false) :
    (sortOrder = "asc" →
      (getAllTokens store page limit sortBy sortOrder).tokens.Pairwise
        (fun a b => a.createdAt ≤ b.createdAt)) ∧
    (sortOrder ≠ "asc" →
      (getAllTokens store page limit sortBy sortOrder).tokens.Pairwise
        (fun a b => b.createdAt ≤ a.createdAt)) := by
  have hsub : ∀ l : List Token, (((l.drop ((page - 1) * limit)).take limit).Sublist l) :=
    fun l => (List.take_sublist _ _).trans (List.drop_sublist _ _)
  have h' : ¬ (sortBy ∈ validSortFields) := by simpa using h
  constructor
  · intro hord
    subst hord
    have htok : (getAllTokens store page limit sortBy "asc").tokens =
        ((sortTokens "createdAt" "asc" store).drop ((page - 1) * limit)).take limit := by
      simp [getAllTokens, h']
    rw [htok]
    exact List.Pairwise.sublist (hsub _) (sorted_sortTokens_asc store)
  · intro hord
    have htok : (getAllTokens store page limit sortBy sortOrder).tokens =
        ((sortTokens "createdAt" "desc" store).drop ((page - 1) * limit)).take limit := by
      simp [getAllTokens, h', hord]
    rw [htok]
    exact List.Pairwise.sublist (hsub _) (sorted_sortTokens_desc store "desc" (by simp))

/-- C4 (witness): the amended fallback at the concrete two-record store,
invalid sort field `volume`, descending default order. -/
theorem C4_invalid_sortBy_falls_back_to_createdAt_witness :
    (getAllTokens [tokenLate, tokenEarly] 1 50 "volume" "desc").tokens.Pairwise
      (fun a b => b.createdAt ≤ a.createdAt) :=
  (C4_invalid_sortBy_falls_back_to_createdAt [tokenLate, tokenEarly] 1 50
    "volume" "desc" (by simp [validSortFields])).2 (by simp)

/-- C5 (counterexample): `generateRecommendation` can return the fifth
label `🤔 RESEARCH`, which is not in the claimed four-element set
{BUY, HOLD, MONITOR, AVOID} under either the bare or the display
rendering. -/
theorem C5_counterexample_research_label :
    generateRecommendation tokenResearch = "🤔 RESEARCH" ∧
    "🤔 RESEARCH" ∉ ["BUY", "HOLD", "MONITOR", "AVOID"] ∧
    "🤔 RESEARCH" ∉ ["⚠️ AVOID", "👀 MONITOR", "🚀 BUY", "📈 HOLD"] := by
  refine ⟨?_, by simp, by simp⟩
  norm_num [generateRecommendation, calculateRiskScore, numOr, tokenResearch]

/-- C5 (amended): for every token record, the recommendation label is one
of the five fixed display strings AVOID, MONITOR, BUY, HOLD, RESEARCH. -/
theorem C5_recommendation_label_set (t : Token) :
    generateRecommendation t ∈
      ["⚠️ AVOID", "👀 MONITOR", "🚀 BUY", "📈 HOLD", "🤔 RESEARCH"] := by
  unfold generateRecommendation
  dsimp only
  split_ifs <;> simp

/-- C6 (counterexample): the claim also cites the legacy
`fetchAndStoreLatestTokens` (token-data.service.ts:1679-1717), which on
an all-sources-fail cascade substitutes the ten hardcoded fallback tokens
instead of stopping: starting from an empty store it performs ten writes,
not zero. -/
theorem C6_counterexample_legacy_fallback_inserts :
    (fetchAndStoreLatestTokensLegacy 0 [] .fail .fail .fail rngHalf).inserted +
      (fetchAndStoreLatestTokensLegacy 0 [] .fail .fail .fail rngHalf).updated = 10 ∧
    (10 : ℕ) ≠ 0 := by
  refine ⟨?_, by norm_num⟩
  have hlen : (getRealPumpFunTokenData rngHalf).length = 10 := by
    simp [getRealPumpFunTokenData, knownPumpFunTokens]
  have hne : ¬ ((getRealPumpFunTokenData rngHalf).length = 0) := by omega
  simp only [fetchAndStoreLatestTokensLegacy, trySecondarySourcesLegacy]
  rw [if_neg hne]
  simpa [hlen] using upsertLegacy_counts 0 (getRealPumpFunTokenData rngHalf) ([], 0, 0)

/-- C6 (amended): for the current `fetchAndStoreLatestTokens`
(token-data.service.ts:653-747), when the WebSocket feed fails or returns
an empty batch and the scraper and the token-list API both fail, the
cycle inserts and updates zero records, logs the error, and returns
normally without raising. -/
theorem C6_all_sources_fail_no_writes (now : ℤ) (store : List Token)
    (r1 r2 r3 : FetchOutcome)
    (h1 : r1 = .fail ∨ r1 = .ok []) (h2 : r2 = .fail) (h3 : r3 = .fail) :
    fetchAndStoreLatestTokens now store r1 r2 r3 =
      { store := store, inserted := 0, updated := 0
        errorLogged := true, threw := false } := by
  subst h2; subst h3
  rcases h1 with h | h <;> subst h <;> rfl

/-- C6 (witness): the all-fail cycle on the empty store. -/
theorem C6_all_sources_fail_no_writes_witness :
    fetchAndStoreLatestTokens 0 [] .fail .fail .fail =
      { store := [], inserted := 0, updated := 0
        errorLogged := true, threw := false } :=
  C6_all_sources_fail_no_writes 0 [] _ _ _ (Or.inl rfl) rfl rfl

/-- C7: for every token record, whatever its field values (including NULL
numeric fields, modelled by `none`), `calculateRiskScore` lies in
[0, 100]. -/
theorem C7_riskScore_in_bounds (t : Token) :
    0 ≤ calculateRiskScore t ∧ calculateRiskScore t ≤ 100 := by
  unfold calculateRiskScore
  split_ifs <;> constructor <;> norm_num

/-- C8 (counterexample): `clearOldTokens` is `Promise<void>`: its return
value carries no information, so it cannot return the per-predicate
counts.  Two runs whose per-predicate deletion counts differ —
(1, 0, 0) for a 40-day-old record, (0, 0, 1) for a dead 4-day-old
record — hand the caller identical return values. -/
theorem C8_counterexample_void_return :
    ((clearOldTokens (40 * dayMs) [tokenAncient]).veryOld,
     (clearOldTokens (40 * dayMs) [tokenAncient]).withoutImage,
     (clearOldTokens (40 * dayMs) [tokenAncient]).dead) = (1, 0, 0) ∧
    ((clearOldTokens (40 * dayMs) [tokenDead]).veryOld,
     (clearOldTokens (40 * dayMs) [tokenDead]).withoutImage,
     (clearOldTokens (40 * dayMs) [tokenDead]).dead) = (0, 0, 1) ∧
    (clearOldTokens (40 * dayMs) [tokenAncient]).returned =
      (clearOldTokens (40 * dayMs) [tokenDead]).returned := by
  refine ⟨?_, ?_, rfl⟩
  · norm_num [clearOldTokens, deleteMany, veryOldPred, noImageLowCapPred, deadPred,
      numLt, numLe, tokenAncient, dayMs, List.countP, List.countP.go]
  · norm_num [clearOldTokens, deleteMany, veryOldPred, noImageLowCapPred, deadPred,
      numLt, numLe, tokenDead, dayMs, List.countP, List.countP.go]

/-- C8 (amended): every `clearOldTokens` invocation computes the count of
rows deleted by each of the three age/quality predicates and logs the
breakdown when the total is positive, but returns nothing to its caller
(void); `manualCleanupOldTokens` likewise returns nothing. -/
theorem C8_cleanup_counts_logged_not_returned (now : ℤ) (store : List Token) :
    (clearOldTokens now store).veryOld = store.countP (veryOldPred now) ∧
    (clearOldTokens now store).withoutImage =
      store.countP (fun t => !(veryOldPred now t) && noImageLowCapPred now t) ∧
    (clearOldTokens now store).dead =
      store.countP (fun t =>
        !(veryOldPred now t) && !(noImageLowCapPred now t) && deadPred now t) ∧
    (clearOldTokens now store).logged =
      (if 0 < (clearOldTokens now store).veryOld + (clearOldTokens now store).withoutImage
            + (clearOldTokens now store).dead then
        some ((clearOldTokens now store).veryOld, (clearOldTokens now store).withoutImage,
          (clearOldTokens now store).dead)
      else none) ∧
    (clearOldTokens now store).returned = () ∧
    (manualCleanupOldTokens now store).returned = () := by
  refine ⟨rfl, ?_, ?_, rfl, rfl, rfl⟩
  · simp [clearOldTokens, deleteMany, List.countP_filter, Bool.and_comm]
  · simp [clearOldTokens, deleteMany, List.countP_filter, Bool.and_comm, Bool.and_assoc,
      Bool.and_left_comm]

/-- C9: on the update path for an already-stored address, the fetch cycle
writes only priceUsd, volume24h, marketCap and updatedAt; address, name,
symbol, description, imageUrl and createdAt are left unchanged. -/
theorem C9_update_path_frame (now : ℤ) (store : List Token) (c : Candidate)
    (i u : ℕ) (t : Token) (hmem : t ∈ store) (haddr : t.address = c.mint) :
    applyUpdate now c t ∈ (upsertStep now (store, i, u) c).1 ∧
    (applyUpdate now c t).address = t.address ∧
    (applyUpdate now c t).name = t.name ∧
    (applyUpdate now c t).symbol = t.symbol ∧
    (applyUpdate now c t).description = t.description ∧
    (applyUpdate now c t).imageUrl = t.imageUrl ∧
    (applyUpdate now c t).createdAt = t.createdAt ∧
    (applyUpdate now c t).priceUsd = some (calculateTokenPrice c) ∧
    (applyUpdate now c t).volume24h = some (c.virtual_sol_reserves * (1 / 10)) ∧
    (applyUpdate now c t).marketCap = some (jsOrQ c.usd_market_cap (jsOrQ c.market_cap 0)) ∧
    (applyUpdate now c t).updatedAt = now :=
  ⟨mem_upsertStep_of_match now store c i u t hmem haddr,
    rfl, rfl, rfl, rfl, rfl, rfl, rfl, rfl, rfl, rfl⟩

/-- C9 (witness): the frame property at the concrete store `[tokenStale]`
and candidate `candFresh`. -/
theorem C9_update_path_frame_witness :
    applyUpdate 7 candFresh tokenStale ∈ (upsertStep 7 ([tokenStale], 0, 0) candFresh).1 ∧
    (applyUpdate 7 candFresh tokenStale).createdAt = tokenStale.createdAt := by
  have h := C9_update_path_frame 7 [tokenStale] candFresh 0 0 tokenStale (by simp) rfl
  exact ⟨h.1, h.2.2.2.2.2.2.1⟩

/-- C10: `analyzeMemecoins` divides the price sum by the token count with
no empty-store guard: on an empty store the divisor is 0 and the
JavaScript result is NaN (`none` in the model), which differs from the
number 0 returned for empty aggregates by the catch branch. -/
theorem C10_empty_store_average_price_nan :
    ((getAllTokens ([] : List Token)).tokens).length = 0 ∧
    (analyzeMemecoins []).averagePrice = none ∧
    emptyAnalysis.averagePrice = some 0 ∧
    (analyzeMemecoins []).averagePrice ≠ emptyAnalysis.averagePrice := by
  refine ⟨?_, ?_, rfl, ?_⟩
  · simp [getAllTokens, sortTokens]
  · simp [analyzeMemecoins, getAllTokens, sortTokens, jsDiv]
  · simp [analyzeMemecoins, getAllTokens, sortTokens, jsDiv, emptyAnalysis]

end TokenAnalyzer
